import Mathlib

/-!
Shallow embedding of `pyminiping` (src/pyminiping/core.py, exceptions.py)
and proofs of the specification claims about it.

Bytes are modelled as `List Nat` (each entry a byte value 0..255 where the
source guarantees it).  Python integer operations are translated to `Nat`/`Int`
arithmetic: `& 0xffffffff` is `% 4294967296`, `& 0xffff` is `% 65536`,
`>> 16` is `/ 65536`, `x << 8` is `x * 256`, and `~x & 0xffff` (on `x ≥ 0`)
is `65535 - x % 65536`.  Fallible Python code (struct packing/unpacking,
indexing, raised exceptions) is modelled with `Except PyErr`.
-/

namespace Pyminiping

/-- Python exception values that the engine can raise: the library classes of
exceptions.py plus the builtin exceptions that core.py can raise
(`struct.error`, `IndexError`, `ValueError`). -/
inductive PyErr where
  /-- builtin struct.error -/
  | structError (msg : String)
  /-- builtin IndexError -/
  | indexError (msg : String)
  /-- builtin ValueError -/
  | valueError (msg : String)
  /-- exceptions.HostUnreachable -/
  | hostUnreachable (msg : String)
  /-- exceptions.RootRequired -/
  | rootRequired (msg : String)
  /-- exceptions.PingTimeout -/
  | pingTimeout (msg : String)
  /-- exceptions.PacketError (defined in exceptions.py; note: never raised by core.py) -/
  | packetError (msg : String)
  /-- exceptions.DestinationUnreachable, carrying `code` and `message` -/
  | destinationUnreachable (code : Int) (msg : String)
  /-- exceptions.PyMiniPingException (the base class, raised directly by core.py) -/
  | pyMiniPing (msg : String)
deriving DecidableEq

/-- Whether an exception is part of the library's error taxonomy, i.e. an
instance of `PyMiniPingException` (exceptions.py: every library exception
subclasses it; `struct.error`, `IndexError`, `ValueError` are Python builtins
and are not). -/
def PyErr.isTaxonomy : PyErr → Bool
  | .structError _ => false
  | .indexError _ => false
  | .valueError _ => false
  | _ => true

/-- Python `str(e)` for the exceptions above, as used by the f-string in
`raise PyMiniPingException(f"Ping failed: {e}")` (core.py line 281).  For
`DestinationUnreachable`, `str` is the message built in its `__init__`
(exceptions.py line 26). -/
def PyErr.str : PyErr → String
  | .structError m => m
  | .indexError m => m
  | .valueError m => m
  | .hostUnreachable m => m
  | .rootRequired m => m
  | .pingTimeout m => m
  | .packetError m => m
  | .destinationUnreachable c m =>
      "ICMP Destination Unreachable (code " ++ toString c ++ "): " ++ m
  | .pyMiniPing m => m

/-- socket.AF_INET on Linux. -/
def AF_INET : Nat := 2
/-- socket.AF_INET6 on Linux. -/
def AF_INET6 : Nat := 10

/-- ICMP_ECHO_REQUEST (core.py line 17). -/
def ICMP_ECHO_REQUEST : Nat := 8
/-- ICMP6_ECHO_REQUEST (core.py line 18). -/
def ICMP6_ECHO_REQUEST : Nat := 128

/-- icmp_code_to_text (core.py lines 21-32): RFC 792 destination-unreachable
code table, defaulting to "Unknown reason". -/
def icmp_code_to_text (code : Int) : String :=
  if code = 0 then "Network unreachable"
  else if code = 1 then "Host unreachable"
  else if code = 2 then "Protocol unreachable"
  else if code = 3 then "Port unreachable"
  else if code = 4 then "Fragmentation needed and DF set"
  else if code = 5 then "Source route failed"
  else if code = 13 then "Communication administratively prohibited (firewalled)"
  else "Unknown reason"

/-- icmpv6_code_to_text (core.py lines 35-46). -/
def icmpv6_code_to_text (code : Int) : String :=
  if code = 0 then "No route to destination"
  else if code = 1 then "Communication administratively prohibited (firewalled)"
  else if code = 2 then "Beyond scope of source address"
  else if code = 3 then "Address unreachable"
  else if code = 4 then "Port unreachable"
  else if code = 5 then "Source address failed ingress/egress policy"
  else if code = 6 then "Reject route to destination"
  else if code = 7 then "Error in Source Routing Header"
  else "Unknown reason"

/-- The summation loop of `checksum` (core.py lines 67-77): consume the byte
list two at a time adding little-endian 16-bit words, keeping the accumulator
masked to 32 bits (`& 0xffffffff` = `% 4294967296`); a trailing odd byte is
added on its own. -/
def sumLoop : Nat → List Nat → Nat
  | s, b0 :: b1 :: rest => sumLoop ((s + (b1 * 256 + b0)) % 4294967296) rest
  | s, [b] => (s + b) % 4294967296
  | s, [] => s

/-- checksum (core.py lines 66-83): RFC 1071-style internet checksum.  After
the summation loop: fold the carries (`>> 16` is `/ 65536`, `& 0xffff` is
`% 65536`), one's-complement the low 16 bits (`~sum_p & 0xffff` is
`65535 - sum_p % 65536` for nonnegative `sum_p`), and swap the two bytes
(`answer >> 8 | (answer << 8 & 0xff00)` on a 16-bit value is
`answer % 256 * 256 + answer / 256`). -/
def checksum (source : List Nat) : Nat :=
  let sum1 := sumLoop 0 source
  let sum2 := sum1 / 65536 + sum1 % 65536
  let sum3 := sum2 + sum2 / 65536
  let answer := 65535 - sum3 % 65536
  answer % 256 * 256 + answer / 256

/-- struct.pack format 'B' (unsigned byte): one byte, value must fit. -/
def pack_B (n : Nat) : Except PyErr (List Nat) :=
  if n ≤ 255 then .ok [n]
  else .error (.structError "ubyte format requires 0 <= number <= 255")

/-- struct.pack format 'b' (signed byte). -/
def pack_b (n : Int) : Except PyErr (List Nat) :=
  if -128 ≤ n ∧ n ≤ 127 then .ok [(n % 256).toNat]
  else .error (.structError "byte format requires -128 <= number <= 127")

/-- struct.pack format '!H' (big-endian unsigned 16-bit). -/
def pack_H (n : Nat) : Except PyErr (List Nat) :=
  if n ≤ 65535 then .ok [n / 256, n % 256]
  else .error (.structError "ushort format requires 0 <= number <= 65535")

/-- struct.pack format '!h' (big-endian signed 16-bit, two's complement). -/
def pack_h (n : Int) : Except PyErr (List Nat) :=
  if -32768 ≤ n ∧ n ≤ 32767 then
    .ok [((n % 65536) / 256).toNat, (n % 65536 % 256).toNat]
  else .error (.structError "short format requires -32768 <= number <= 32767")

/-- create_packet (core.py lines 96-112).  `ts` stands for the 8 bytes of
`struct.pack('d', time.time())`; the IEEE-754 encoding itself carries no
logic the claims depend on, so the bytes are passed in as a parameter.
Faithful to the source's order of effects: the header is packed first
(lines 98-101, so a struct packing error fires before the size check),
then `size < 8` raises ValueError (lines 103-104), then the checksum is
computed over header plus payload and the header is re-packed with it
(lines 105-112). -/
def create_packet (family : Nat) (packet_id : Nat) (seq : Nat) (size : Nat)
    (ts : List Nat) : Except PyErr (List Nat) := do
  let _header ←
    if family = AF_INET then do
      let b1 ← pack_B ICMP_ECHO_REQUEST
      let b2 ← pack_B 0
      let b3 ← pack_H 0
      let b4 ← pack_H packet_id
      let b5 ← pack_H seq
      pure (b1 ++ b2 ++ b3 ++ b4 ++ b5)
    else do
      let b1 ← pack_B ICMP6_ECHO_REQUEST
      let b2 ← pack_b 0
      let b3 ← pack_H 0
      let b4 ← pack_H packet_id
      let b5 ← pack_h (seq : Int)
      pure (b1 ++ b2 ++ b3 ++ b4 ++ b5)
  if size < 8 then throw (.valueError "Minimum size is 8 bytes.")
  else do
    let payload := ts ++ List.replicate (size - 8) 0
    let packet := _header ++ payload
    let my_checksum := checksum packet
    let header ←
      if family = AF_INET then do
        let b1 ← pack_B ICMP_ECHO_REQUEST
        let b2 ← pack_B 0
        let b3 ← pack_H my_checksum
        let b4 ← pack_H packet_id
        let b5 ← pack_H seq
        pure (b1 ++ b2 ++ b3 ++ b4 ++ b5)
      else do
        let b1 ← pack_B ICMP6_ECHO_REQUEST
        let b2 ← pack_b 0
        let b3 ← pack_H my_checksum
        let b4 ← pack_H packet_id
        let b5 ← pack_h (seq : Int)
        pure (b1 ++ b2 ++ b3 ++ b4 ++ b5)
    pure (header ++ payload)

/-- guess_initial_ttl (core.py lines 115-122). -/
def guess_initial_ttl (received_ttl : Nat) : Nat :=
  if received_ttl ≤ 64 then 64
  else if received_ttl ≤ 128 then 128
  else 255

/-- guess_os (core.py lines 125-132). -/
def guess_os (received_ttl : Nat) : String :=
  if received_ttl ≤ 64 then "Linux/Unix/BSD/macOS/Android"
  else if received_ttl ≤ 128 then "Windows"
  else "Network device (e.g., Cisco)"

/-- calc_hops (core.py lines 135-138): `initial_ttl - received_ttl + 1`.
`guess_initial_ttl t ≥ t` for every byte-valued ttl, so `Nat` subtraction
agrees with Python here. -/
def calc_hops (received_ttl : Nat) : Nat :=
  guess_initial_ttl received_ttl - received_ttl + 1

/-- Ordered insertion into a sorted list, ascending. -/
def insertAsc (x : ℚ) : List ℚ → List ℚ
  | [] => [x]
  | y :: ys => if x ≤ y then x :: y :: ys else y :: insertAsc x ys

/-- Ascending sort, modelling Python's `sorted` (core.py line 55). -/
def sortAsc : List ℚ → List ℚ
  | [] => []
  | x :: xs => insertAsc x (sortAsc xs)

/-- The non-empty branch of percentile (core.py lines 55-63), acting on the
already-sorted list.  `int(k)` is truncation toward zero, which is the floor
for the nonnegative ranks that arise from percents in 0..100; indexing is in
range in every reachable case, modelled with `getD`/`getLast?` defaults. -/
def percentileRank (d : List ℚ) (percent : ℚ) : ℚ :=
  let n : ℤ := d.length
  let k : ℚ := ((n : ℚ) - 1) * (percent / 100)
  let f : ℤ := ⌊k⌋
  let c : ℤ := f + 1
  if n - 1 < c then (d.getLast?).getD 0
  else d.getD f.toNat 0 * ((c : ℚ) - k) + d.getD c.toNat 0 * (k - (f : ℚ))

/-- percentile (core.py lines 49-63), over exact rationals: `None` on an
empty list, otherwise sort ascending and interpolate at the requested rank. -/
def percentile (data : List ℚ) (percent : ℚ) : Option ℚ :=
  match data with
  | [] => none
  | _ :: _ => some (percentileRank (sortAsc data) percent)

/-- Modelled from the spec (section 4.5): "`p95`: linear-interpolation
percentile — sort samples ascending, compute rank `k = (n-1) * 0.95`,
interpolate between the floor and ceiling index values; return the single
value directly if `n == 1`."  Used as the spec-side reference point of the
refinement claim about `percentile`. -/
def p95_spec (data : List ℚ) : Option ℚ :=
  match data with
  | [] => none
  | _ :: _ =>
    let d := sortAsc data
    if d.length = 1 then some d.headI
    else
      let k : ℚ := ((d.length : ℚ) - 1) * (95 / 100)
      some (d.getD ⌊k⌋.toNat 0
        + (k - (⌊k⌋ : ℚ)) * (d.getD ⌈k⌉.toNat 0 - d.getD ⌊k⌋.toNat 0))

/-- statistics.mean over exact rationals. -/
def listMean (l : List ℚ) : ℚ := l.sum / l.length

/-- statistics.median: middle element of the sorted list, or the average of
the two middle elements for even length. -/
def listMedian (l : List ℚ) : ℚ :=
  let d := sortAsc l
  let n := d.length
  if n % 2 = 1 then d.getD (n / 2) 0
  else (d.getD (n / 2 - 1) 0 + d.getD (n / 2) 0) / 2

/-- Python `min` over a list, `none` when empty (matching
`min(rtt_list) if rtt_list else None`, core.py line 294). -/
def listMin : List ℚ → Option ℚ
  | [] => none
  | x :: xs => some (xs.foldl min x)

/-- Python `max` over a list, `none` when empty. -/
def listMax : List ℚ → Option ℚ
  | [] => none
  | x :: xs => some (xs.foldl max x)

/-- Python sequence indexing `l[i]`, raising IndexError when out of range
(used for `ip_header[8]`, core.py line 253). -/
def byteGet (l : List Nat) (i : Nat) : Except PyErr Nat :=
  if h : i < l.length then .ok l[i]
  else .error (.indexError "index out of range")

/-- struct.unpack('!BBHHH', b) (core.py line 254): requires exactly 8 bytes,
yields (type, code, checksum, id, sequence), all unsigned. -/
def unpack_BBHHH (b : List Nat) :
    Except PyErr (Nat × Nat × Nat × Nat × Nat) :=
  if h : b.length = 8 then
    .ok (b.get ⟨0, by omega⟩, b.get ⟨1, by omega⟩,
         b.get ⟨2, by omega⟩ * 256 + b.get ⟨3, by omega⟩,
         b.get ⟨4, by omega⟩ * 256 + b.get ⟨5, by omega⟩,
         b.get ⟨6, by omega⟩ * 256 + b.get ⟨7, by omega⟩)
  else .error (.structError "unpack requires a buffer of 8 bytes")

/-- Two's-complement reading of an unsigned byte as struct format 'b'. -/
def signed8 (b : Nat) : Int := if b < 128 then (b : Int) else (b : Int) - 256

/-- Two's-complement reading of an unsigned 16-bit word as struct format 'h'. -/
def signed16 (w : Nat) : Int := if w < 32768 then (w : Int) else (w : Int) - 65536

/-- struct.unpack('!BbHHh', b) (core.py line 262): requires exactly 8 bytes,
yields (type, code, checksum, id, sequence) with code and sequence signed. -/
def unpack_BbHHh (b : List Nat) :
    Except PyErr (Nat × Int × Nat × Nat × Int) :=
  if h : b.length = 8 then
    .ok (b.get ⟨0, by omega⟩, signed8 (b.get ⟨1, by omega⟩),
         b.get ⟨2, by omega⟩ * 256 + b.get ⟨3, by omega⟩,
         b.get ⟨4, by omega⟩ * 256 + b.get ⟨5, by omega⟩,
         signed16 (b.get ⟨6, by omega⟩ * 256 + b.get ⟨7, by omega⟩))
  else .error (.structError "unpack requires a buffer of 8 bytes")

/-- struct.unpack('d', b) (core.py lines 269/271): requires exactly 8 bytes.
The IEEE-754 interpretation of the bytes is the caller-supplied `decodeD`;
no claim depends on its numeric values. -/
def unpack_d (decodeD : List Nat → ℚ) (b : List Nat) : Except PyErr ℚ :=
  if b.length = 8 then .ok (decodeD b)
  else .error (.structError "unpack requires a buffer of 8 bytes")

/-- A parsed inbound ICMP header, as read by the receive path of `ping`. -/
structure Reply where
  ty : Nat
  code : Int
  rid : Int
  rseq : Int
  rttl : Option Nat
deriving DecidableEq

/-- The header-parsing part of the receive path (core.py lines 250-265,
before the destination-unreachable check).  IPv4: slice the 20-byte IP
header, read the TTL from its byte 8 (IndexError on very short buffers,
line 253 runs before the unpack on line 254), then unpack the 8 ICMP header
bytes at offset 20.  IPv6: the ICMP header starts at byte 0 and no TTL is
available. -/
def parseReply (family : Nat) (rec_packet : List Nat) : Except PyErr Reply :=
  if family = AF_INET then do
    let ip_header := rec_packet.take 20
    let icmp_header := (rec_packet.drop 20).take 8
    let recv_ttl ← byteGet ip_header 8
    let r ← unpack_BBHHH icmp_header
    pure ⟨r.1, (r.2.1 : Int), (r.2.2.2.1 : Int), (r.2.2.2.2 : Int), some recv_ttl⟩
  else do
    let icmp_header := rec_packet.take 8
    let r ← unpack_BbHHh icmp_header
    pure ⟨r.1, r.2.1, (r.2.2.2.1 : Int), r.2.2.2.2, none⟩

/-- One inbound datagram offered by the environment: `delta` is the time from
the moment the engine (re-)enters `recvfrom` until this datagram is available;
`bytes` is the raw buffer `recvfrom` returns. -/
structure Datagram where
  delta : ℚ
  bytes : List Nat
deriving DecidableEq

/-- The `while True` receive loop for one sequence number (core.py lines
246-279), with `sock.settimeout(timeout)` semantics: each single `recvfrom`
waits at most `timeout`; `socket.timeout` ends the loop via `break`.  Returns
the clock after the loop, the datagrams not yet consumed (a datagram that had
not yet arrived when the timeout fired keeps its remaining delay), and either
an exception, or `none` (timed out, sequence lost), or `some (rtt, recv_ttl)`
for a matched reply. -/
def listen (family pid seq : Nat) (timeout : ℚ) (decodeD : List Nat → ℚ) :
    ℚ → List Datagram → ℚ × List Datagram × Except PyErr (Option (ℚ × Option Nat))
  | clock, [] => (clock + timeout, [], .ok none)
  | clock, d :: rest =>
    if timeout < d.delta then
      (clock + timeout, ⟨d.delta - timeout, d.bytes⟩ :: rest, .ok none)
    else
      let time_received := clock + d.delta
      match parseReply family d.bytes with
      | .error e => (time_received, rest, .error e)
      | .ok r =>
        if (family = AF_INET ∧ r.ty = 3) ∨ (¬family = AF_INET ∧ r.ty = 1) then
          (time_received, rest,
           .error (.destinationUnreachable r.code
             (if family = AF_INET then icmp_code_to_text r.code
              else icmpv6_code_to_text r.code)))
        else if r.rid = (pid : Int) ∧ r.rseq = (seq : Int) then
          let tsBytes := if family = AF_INET then (d.bytes.drop 28).take 8
                         else (d.bytes.drop 8).take 8
          match unpack_d decodeD tsBytes with
          | .error e => (time_received, rest, .error e)
          | .ok time_sent => (time_received, rest, .ok (some (time_received - time_sent, r.rttl)))
        else listen family pid seq timeout decodeD time_received rest

/-- Result dataclass (core.py lines 141-177).  The `jitter` field (sample
standard deviation) is the one field omitted from the embedding: it needs
real square roots and no claim refers to it; every other field is carried. -/
structure PingResult where
  sent : Nat
  received : Nat
  loss : ℚ
  min : Option ℚ
  max : Option ℚ
  mean : Option ℚ
  median : Option ℚ
  rtt_list : List ℚ
  ttl : Option Nat
  hops : Option Nat
  os_guess : Option String
  p95 : Option ℚ
deriving DecidableEq, Inhabited

/-- Mutable loop state of `ping` (core.py lines 215-217 plus the clock and
the environment's pending datagrams). -/
structure St where
  clock : ℚ
  events : List Datagram
  rtt_list : List ℚ
  received : Nat
  ttl : Option Nat
deriving DecidableEq

/-- The `for seq in range(1, count + 1)` loop of `ping` (core.py lines
241-282), one iteration per `fuel` step starting at sequence `seq`.
Per iteration: `create_packet` runs OUTSIDE the try block (line 242), so its
exceptions propagate raw; the send/receive block's exceptions are caught by
`except Exception` and re-raised as
`PyMiniPingException(f"Ping failed: {e}")` (lines 280-281); a timed-out
sequence is simply lost; after the body,
`time.sleep(interval if seq < count else 0)` (line 282). -/
def runLoop (family pid : Nat) (timeout interval : ℚ) (size : Nat)
    (ts : Nat → List Nat) (decodeD : List Nat → ℚ) (count : Nat) :
    Nat → Nat → St → St × Option PyErr
  | 0, _, st => (st, none)
  | fuel + 1, seq, st =>
    match create_packet family pid seq size (ts seq) with
    | .error e => (st, some e)
    | .ok _packet =>
      match listen family pid seq timeout decodeD st.clock st.events with
      | (clock1, evs1, .error e) =>
        ({ st with clock := clock1, events := evs1 },
         some (.pyMiniPing ("Ping failed: " ++ e.str)))
      | (clock1, evs1, .ok none) =>
        let sleep : ℚ := if seq < count then interval else 0
        runLoop family pid timeout interval size ts decodeD count fuel (seq + 1)
          { st with clock := clock1 + sleep, events := evs1 }
      | (clock1, evs1, .ok (some (rtt, recv_ttl))) =>
        let sleep : ℚ := if seq < count then interval else 0
        runLoop family pid timeout interval size ts decodeD count fuel (seq + 1)
          { clock := clock1 + sleep, events := evs1,
            rtt_list := st.rtt_list ++ [rtt],
            received := st.received + 1,
            ttl := if st.ttl = none then recv_ttl else st.ttl }

/-- The statistics block of `ping` (core.py lines 288-305). -/
def mkStats (family count : Nat) (st : St) : PingResult :=
  let loss : ℚ :=
    if count ≠ 0 then (((count : ℚ) - (st.received : ℚ)) / (count : ℚ)) * 100 else 100
  let os_guess : Option String :=
    match st.ttl with
    | some t => if family = AF_INET then some (guess_os t) else none
    | none => none
  { sent := count
    received := st.received
    loss := loss
    min := listMin st.rtt_list
    max := listMax st.rtt_list
    mean := if st.rtt_list = [] then none else some (listMean st.rtt_list)
    median := if st.rtt_list = [] then none else some (listMedian st.rtt_list)
    rtt_list := st.rtt_list
    ttl := st.ttl
    hops :=
      match st.ttl with
      | some t => if family = AF_INET then some (calc_hops t) else none
      | none => none
    os_guess := os_guess
    p95 := if st.rtt_list = [] then none else percentile st.rtt_list 95 }

deriving instance DecidableEq for Except

/-- Observable outcome of one `ping` invocation: the returned result or the
raised exception, whether the raw socket was opened, how many times it was
closed, and the traffic-class value applied to it (if any). -/
structure RunResult where
  outcome : Except PyErr PingResult
  socketOpened : Bool
  socketCloses : Nat
  appliedTos : Option Int
deriving DecidableEq

/-- ping (core.py lines 180-305), for a run in which name resolution
produced `family` and the raw socket was created successfully (line 225,
recorded as `socketOpened := true` — it happens before anything below).
`pid` is `os.getpid()`, masked to 16 bits on line 214; `dscp`, when present,
is shifted left two bits and applied with no range validation (lines
231-239); `ts seq` gives the timestamp bytes packed into the packet of
sequence `seq`; `events` are the inbound datagrams.  `sock.close()`
(line 283) runs only when the loop finishes without an exception — an
exception raised inside the loop propagates with the socket still open. -/
def ping (family : Nat) (host : String) (count : Nat) (timeout interval : ℚ)
    (size : Nat) (dscp : Option Int) (pid : Nat) (ts : Nat → List Nat)
    (decodeD : List Nat → ℚ) (events : List Datagram) : RunResult :=
  let packet_id := pid % 65536
  let appliedTos := dscp.map (fun d => d * 4)
  match runLoop family packet_id timeout interval size ts decodeD count count 1
      ⟨0, events, [], 0, none⟩ with
  | (_, some e) => ⟨.error e, true, 0, appliedTos⟩
  | (st, none) =>
    if st.received = 0 then
      ⟨.error (.pingTimeout
          ("No reply from host " ++ host ++ " (timeout after " ++ toString timeout ++ "s).")),
       true, 1, appliedTos⟩
    else ⟨.ok (mkStats family count st), true, 1, appliedTos⟩

/-- Whether an outcome is a successful `PingResult`. -/
def isOkOutcome : Except PyErr PingResult → Bool
  | .ok _ => true
  | .error _ => false

/-- Whether an outcome is a raised `PacketError`. -/
def isPacketErrorOutcome : Except PyErr PingResult → Bool
  | .error (.packetError _) => true
  | _ => false

/-- Whether an outcome is a raised `DestinationUnreachable`. -/
def isDestUnreachOutcome : Except PyErr PingResult → Bool
  | .error (.destinationUnreachable _ _) => true
  | _ => false

/-- The successful value of an outcome, defaulting when it is an error. -/
def okValue : Except PyErr PingResult → PingResult
  | .ok r => r
  | .error _ => default

/-! Concrete inputs used by witnesses and counterexamples. -/

/-- Eight concrete timestamp bytes (stands for `struct.pack('d', time.time())`). -/
def ts8 : List Nat := [64, 216, 76, 204, 0, 0, 0, 0]

/-- Timestamp bytes per sequence: the same eight bytes for every probe. -/
def tsF : Nat → List Nat := fun _ => ts8

/-- A concrete IEEE-754 interpretation for witnesses: every buffer reads as 0. -/
def dF : List Nat → ℚ := fun _ => 0

/-- A concrete 20-byte IPv4 header of a loopback reply; byte 8 is TTL = 64. -/
def fakeIp : List Nat :=
  [69, 0, 0, 84, 171, 205, 0, 0, 64, 1, 0, 0, 127, 0, 0, 1, 127, 0, 0, 1]

/-- A matching IPv4 echo reply to the probe with id 5, sequence 1. -/
def echoReplyPkt : List Nat := fakeIp ++ [0, 0, 0, 0, 0, 5, 0, 1] ++ ts8

/-- An IPv4 destination-unreachable reply, type 3 code 3. -/
def unreachPkt : List Nat := fakeIp ++ [3, 3, 0, 0, 0, 5, 0, 1] ++ ts8

/-- An IPv4 echo reply whose id (2313) does not belong to our probe. -/
def foreignPkt : List Nat := fakeIp ++ [0, 0, 0, 0, 9, 9, 0, 1] ++ ts8

/-- A truncated inbound buffer, shorter than the IPv4 fixed header size. -/
def shortPkt : List Nat := [69, 0, 0, 84, 171]

/-- The concrete run used by the DestinationUnreachable / socket-leak claims:
IPv4, one probe, and the only inbound datagram is `unreachPkt`. -/
def unreachRun : RunResult :=
  ping AF_INET "h" 1 1 (1/10) 8 none 5 tsF dF [⟨0, unreachPkt⟩]

/-- A concrete successful run: IPv4, one probe, one matching reply. -/
def demoRun : RunResult :=
  ping AF_INET "h" 1 1 (1/10) 8 none 5 tsF dF [⟨0, echoReplyPkt⟩]

/-! Evaluation lemmas for the concrete runs.  Byte-level computations are
settled by `decide` (pure `Nat`); the rational clock arithmetic, which is not
reducible by the kernel, is normalised by `norm_num`. -/

/-- The packet `create_packet` builds for the demo probes (pid 5, seq 1). -/
theorem create_packet_demo : create_packet AF_INET 5 1 8 ts8
    = .ok [8, 0, 106, 85, 0, 5, 0, 1, 64, 216, 76, 204, 0, 0, 0, 0] := by decide

/-- Listening on the destination-unreachable datagram raises
`DestinationUnreachable(3, "Port unreachable")` inside the loop. -/
theorem listen_unreach : listen AF_INET 5 1 1 dF 0 [⟨0, unreachPkt⟩]
    = (0, [], .error (.destinationUnreachable 3 "Port unreachable")) := by
  have hp : parseReply AF_INET unreachPkt = .ok ⟨3, 3, 5, 1, some 64⟩ := by decide
  simp only [listen]
  rw [if_neg (by norm_num)]
  simp only [hp]
  norm_num [icmp_code_to_text, AF_INET]

/-- Full observable outcome of the destination-unreachable run: the generic
wrapped exception, socket opened, never closed. -/
theorem unreachRun_eval : unreachRun = ⟨.error (.pyMiniPing
    "Ping failed: ICMP Destination Unreachable (code 3): Port unreachable"),
    true, 0, none⟩ := by
  simp only [unreachRun, ping, runLoop]
  norm_num [tsF, create_packet_demo, listen_unreach]
  decide

/-- Listening on the matching echo reply yields the sample (rtt 0, ttl 64). -/
theorem listen_demo : listen AF_INET 5 1 1 dF 0 [⟨0, echoReplyPkt⟩]
    = (0, [], .ok (some (0, some 64))) := by
  have hp : parseReply AF_INET echoReplyPkt = .ok ⟨0, 0, 5, 1, some 64⟩ := by decide
  have hu : unpack_d dF ((echoReplyPkt.drop 28).take 8) = .ok 0 := by decide
  simp only [listen]
  rw [if_neg (by norm_num)]
  simp only [hp]
  norm_num [AF_INET, hu]

/-- Full observable outcome of the successful demo run, for any dscp value
(dscp only determines the applied traffic class). -/
theorem ping_demo_eval (dscp : Option Int) :
    ping AF_INET "h" 1 1 (1/10) 8 dscp 5 tsF dF [⟨0, echoReplyPkt⟩]
      = ⟨.ok ⟨1, 1, 0, some 0, some 0, some 0, some 0, [0], some 64, some 1,
          some "Linux/Unix/BSD/macOS/Android", some 0⟩, true, 1,
         dscp.map (fun d => d * 4)⟩ := by
  simp only [ping, runLoop]
  norm_num [tsF, create_packet_demo, listen_demo]
  simp only [mkStats, listMin, listMax, listMean, listMedian, percentile,
    percentileRank, sortAsc, insertAsc, AF_INET, guess_os, calc_hops,
    guess_initial_ttl]
  norm_num [List.getLast?]

/-- Full observable outcome of the successful demo run. -/
theorem demoRun_eval : demoRun = ⟨.ok
    ⟨1, 1, 0, some 0, some 0, some 0, some 0, [0], some 64, some 1,
     some "Linux/Unix/BSD/macOS/Android", some 0⟩, true, 1, none⟩ := by
  rw [demoRun, ping_demo_eval]; rfl

/-- For any pid below 65536 and sequence below 32768, `create_packet` with
`size < 8` reaches the size check (the header packs fine first) and raises
`ValueError("Minimum size is 8 bytes.")`, on both address families. -/
theorem create_packet_size_lt_8 (family pid seq size : Nat) (ts : List Nat)
    (hpid : pid ≤ 65535) (hseq : seq ≤ 32767) (hsize : size < 8) :
    create_packet family pid seq size ts
      = .error (.valueError "Minimum size is 8 bytes.") := by
  have h1 : (-32768 : Int) ≤ (seq : Int) := by omega
  have h2 : (seq : Int) ≤ 32767 := by omega
  have h3 : seq ≤ 65535 := by omega
  by_cases hf : family = AF_INET <;>
  · simp [create_packet, hf, pack_B, pack_H, pack_b, pack_h, hpid, h3, hsize,
      h1, h2, ICMP_ECHO_REQUEST, ICMP6_ECHO_REQUEST,
      throw, throwThe, MonadExceptOf.throw, Bind.bind, Except.bind,
      pure, Except.pure]

/-! Claim theorems. -/

/-- C1 (code bug).  On an IPv4 run whose reply has ICMP type 3 code 3, the
receive loop does raise `DestinationUnreachable(3, "Port unreachable")`
(core.py line 256), but the blanket `except Exception` on line 280 catches it
and re-raises `PyMiniPingException("Ping failed: ...")`, so `ping` surfaces
the generic transport failure, not a `DestinationUnreachable` — collapsing
exactly what the spec says must stay distinct (cli.py's dedicated
`DestinationUnreachable` handler can never fire). -/
theorem C1_destination_unreachable_is_wrapped :
    icmp_code_to_text 3 = "Port unreachable" ∧
    listen AF_INET 5 1 1 dF 0 [⟨0, unreachPkt⟩]
      = (0, [], .error (.destinationUnreachable 3 "Port unreachable")) ∧
    unreachRun.outcome = .error (.pyMiniPing
      "Ping failed: ICMP Destination Unreachable (code 3): Port unreachable") ∧
    isDestUnreachOutcome unreachRun.outcome = false := by
  refine ⟨rfl, listen_unreach, ?_, ?_⟩
  · rw [unreachRun_eval]
  · rw [unreachRun_eval]
    decide

/-- C3 (code bug).  `sock.close()` (core.py line 283) is not protected by
try/finally: on the exception path of the concrete destination-unreachable
run the socket is opened and never closed, while the normal path closes it
exactly once. -/
theorem C3_socket_not_closed_on_error_path :
    unreachRun.socketOpened = true ∧
    unreachRun.socketCloses = 0 ∧
    isOkOutcome unreachRun.outcome = false ∧
    demoRun.socketCloses = 1 ∧
    isOkOutcome demoRun.outcome = true := by
  rw [unreachRun_eval, demoRun_eval]
  refine ⟨rfl, rfl, by decide, rfl, by decide⟩

/-- C2 (confirmed).  If the probe loop finishes all sequences with zero
matched replies, `ping` raises `PingTimeout` (core.py lines 285-286); and
every `PingResult` actually returned has `received ≥ 1`. -/
theorem C2_zero_replies_is_timeout_never_result (family : Nat) (host : String)
    (count : Nat) (timeout interval : ℚ) (size : Nat) (dscp : Option Int)
    (pid : Nat) (ts : Nat → List Nat) (decodeD : List Nat → ℚ)
    (events : List Datagram) :
    (∀ st, runLoop family (pid % 65536) timeout interval size ts decodeD count
        count 1 ⟨0, events, [], 0, none⟩ = (st, none) → st.received = 0 →
      (ping family host count timeout interval size dscp pid ts decodeD events).outcome
        = .error (.pingTimeout ("No reply from host " ++ host ++
            " (timeout after " ++ toString timeout ++ "s)."))) ∧
    (∀ r, (ping family host count timeout interval size dscp pid ts decodeD events).outcome
        = .ok r → 1 ≤ r.received) := by
  constructor
  · intro st h h0
    simp only [ping, h, h0, if_pos]
  · intro r hr
    simp only [ping] at hr
    split at hr
    · exact absurd hr (by simp)
    · rename_i st heq
      split at hr
      · exact absurd hr (by simp)
      · rename_i hrec
        simp only [Except.ok.injEq] at hr
        subst hr
        simp only [mkStats]
        omega

/-- Witness for C2: a run with no inbound datagrams ends in `PingTimeout`,
and the concrete successful run returns a result with `received ≥ 1`. -/
theorem C2_witness :
    (ping AF_INET "h" 1 1 0 8 none 5 tsF dF []).outcome
      = .error (.pingTimeout "No reply from host h (timeout after 1s).") ∧
    1 ≤ (okValue demoRun.outcome).received := by
  constructor
  · have h : runLoop AF_INET (5 % 65536) 1 0 8 tsF dF 1 1 1 ⟨0, [], [], 0, none⟩
        = (⟨0 + 1 + 0, [], [], 0, none⟩, none) := by
      simp only [runLoop, listen, tsF]
      rw [create_packet_demo]
      norm_num
    exact (C2_zero_replies_is_timeout_never_result AF_INET "h" 1 1 0 8 none 5
      tsF dF []).1 _ h rfl
  · refine (C2_zero_replies_is_timeout_never_result AF_INET "h" 1 1 (1/10) 8
      none 5 tsF dF [⟨0, echoReplyPkt⟩]).2 (okValue demoRun.outcome) ?_
    rw [show (ping AF_INET "h" 1 1 (1/10) 8 none 5 tsF dF [⟨0, echoReplyPkt⟩])
          = demoRun from rfl, demoRun_eval]
    decide

/-- C4 (corrected, amended form).  With `size < 8` and at least one sequence
to send, `ping` raises `ValueError("Minimum size is 8 bytes.")` — the
InvalidArgument of the taxonomy in representation, though as a Python builtin
it is outside the `PyMiniPingException` hierarchy — from `create_packet`
before any packet is sent; but the raw socket has already been opened at that
point (core.py line 225 precedes line 242) and is never closed on this
path. -/
theorem C4_small_size_fails_after_socket_open (family : Nat) (host : String)
    (count : Nat) (timeout interval : ℚ) (size : Nat) (dscp : Option Int)
    (pid : Nat) (ts : Nat → List Nat) (decodeD : List Nat → ℚ)
    (events : List Datagram) (hsize : size < 8) (hcount : 1 ≤ count) :
    (ping family host count timeout interval size dscp pid ts decodeD events).outcome
        = .error (.valueError "Minimum size is 8 bytes.") ∧
    (ping family host count timeout interval size dscp pid ts decodeD events).socketOpened
        = true ∧
    (ping family host count timeout interval size dscp pid ts decodeD events).socketCloses
        = 0 ∧
    PyErr.isTaxonomy (.valueError "Minimum size is 8 bytes.") = false := by
  obtain ⟨c, rfl⟩ : ∃ c, count = c + 1 := ⟨count - 1, by omega⟩
  have hm : pid % 65536 < 65536 := Nat.mod_lt _ (by norm_num)
  have hcp := create_packet_size_lt_8 family (pid % 65536) 1 size (ts 1)
      (by omega) (by omega) hsize
  simp only [ping, runLoop, hcp]
  exact ⟨trivial, trivial, trivial, rfl⟩

/-- Witness for C4's amended theorem at `size = 4`, `count = 1`. -/
theorem C4_witness :
    (ping AF_INET "h" 1 1 0 4 none 5 tsF dF []).outcome
        = .error (.valueError "Minimum size is 8 bytes.") ∧
    (ping AF_INET "h" 1 1 0 4 none 5 tsF dF []).socketOpened = true ∧
    (ping AF_INET "h" 1 1 0 4 none 5 tsF dF []).socketCloses = 0 ∧
    PyErr.isTaxonomy (.valueError "Minimum size is 8 bytes.") = false :=
  C4_small_size_fails_after_socket_open AF_INET "h" 1 1 0 4 none 5 tsF dF []
    (by norm_num) (by norm_num)

/-- Counterexample for C4 as stated: at `size = 4` the failure does carry the
InvalidArgument message, but the socket HAS been opened before the error is
raised, contradicting "no socket is opened or written before the error". -/
theorem C4_counterexample :
    (ping AF_INET "h" 1 1 0 4 none 5 tsF dF []).socketOpened = true ∧
    (ping AF_INET "h" 1 1 0 4 none 5 tsF dF []).outcome
        = .error (.valueError "Minimum size is 8 bytes.") := by
  have hcp := create_packet_size_lt_8 AF_INET (5 % 65536) 1 4 (tsF 1)
      (by norm_num) (by norm_num) (by norm_num)
  simp only [ping, runLoop, hcp]
  exact ⟨trivial, trivial⟩

/-- C9 (corrected, amended form).  `ping` performs no range validation of
dscp at all (core.py lines 231-239): any integer is shifted left two bits and
applied as the traffic class, and the run's outcome is identical to the run
without dscp. -/
theorem C9_dscp_never_validated (family : Nat) (host : String) (count : Nat)
    (timeout interval : ℚ) (size : Nat) (d : Int) (pid : Nat)
    (ts : Nat → List Nat) (decodeD : List Nat → ℚ) (events : List Datagram) :
    (ping family host count timeout interval size (some d) pid ts decodeD events).appliedTos
        = some (d * 4) ∧
    (ping family host count timeout interval size (some d) pid ts decodeD events).outcome
        = (ping family host count timeout interval size none pid ts decodeD events).outcome := by
  simp only [ping, Option.map]
  rcases runLoop family (pid % 65536) timeout interval size ts decodeD count
      count 1 ⟨0, events, [], 0, none⟩ with ⟨st, e⟩
  cases e with
  | none => by_cases h : st.received = 0 <;> simp [h]
  | some e => exact ⟨rfl, rfl⟩

/-- Counterexample for C9 as stated: with `dscp = 64` (out of the 0-63
range) the call does not fail with any InvalidArgument — it applies traffic
class 256 and returns a successful result. -/
theorem C9_counterexample :
    isOkOutcome (ping AF_INET "h" 1 1 (1/10) 8 (some 64) 5 tsF dF
        [⟨0, echoReplyPkt⟩]).outcome = true ∧
    (ping AF_INET "h" 1 1 (1/10) 8 (some 64) 5 tsF dF
        [⟨0, echoReplyPkt⟩]).appliedTos = some 256 := by
  rw [ping_demo_eval]
  exact ⟨rfl, by decide⟩

/-- An IPv4 buffer shorter than the 28-byte fixed header fails to parse with
a Python builtin error: IndexError at `ip_header[8]` when at most 8 bytes,
struct.error from the header unpack otherwise — never `PacketError`. -/
theorem parseReply_v4_short (b : List Nat) (hb : b.length < 28) :
    ∃ e, parseReply AF_INET b = .error e ∧ e.isTaxonomy = false := by
  by_cases h8 : b.length ≤ 8
  · refine ⟨.indexError "index out of range", ?_, rfl⟩
    have hlt : ¬ 8 < b.length := by omega
    simp [parseReply, AF_INET, byteGet, hlt, Bind.bind, Except.bind]
  · refine ⟨.structError "unpack requires a buffer of 8 bytes", ?_, rfl⟩
    have hgt : 8 < b.length := by omega
    have hlen : ¬ 8 ≤ b.length - 20 := by omega
    simp [parseReply, AF_INET, byteGet, hgt, unpack_BBHHH, hlen,
      Bind.bind, Except.bind]

/-- An IPv6 buffer shorter than the 8-byte ICMP header fails the header
unpack with struct.error — never `PacketError`. -/
theorem parseReply_v6_short (b : List Nat) (hb : b.length < 8) :
    parseReply AF_INET6 b = .error (.structError "unpack requires a buffer of 8 bytes") := by
  have hlen : ¬ 8 ≤ b.length := by omega
  simp [parseReply, AF_INET, AF_INET6, unpack_BbHHh, hlen, Bind.bind, Except.bind]

/-- `checksum` always fits 16 bits, so re-packing the header succeeds. -/
theorem checksum_le (l : List Nat) : checksum l ≤ 65535 := by
  simp only [checksum]
  generalize sumLoop 0 l = s
  omega

/-- Shape of the packet built by `create_packet` on the IPv4 path: the
re-packed header (with the checksum of the zero-checksum packet at bytes
2-3) followed by the timestamp bytes and the zero padding. -/
theorem create_packet_v4_ok (pid seq size : Nat) (ts : List Nat)
    (hpid : pid ≤ 65535) (hseq : seq ≤ 65535) (hsize : 8 ≤ size) :
    create_packet AF_INET pid seq size ts = .ok
      ([8, 0,
        checksum ([8, 0, 0, 0, pid / 256, pid % 256, seq / 256, seq % 256]
          ++ (ts ++ List.replicate (size - 8) 0)) / 256,
        checksum ([8, 0, 0, 0, pid / 256, pid % 256, seq / 256, seq % 256]
          ++ (ts ++ List.replicate (size - 8) 0)) % 256,
        pid / 256, pid % 256, seq / 256, seq % 256]
       ++ (ts ++ List.replicate (size - 8) 0)) := by
  have hns : ¬ size < 8 := by omega
  have hcs := checksum_le (8 :: 0 :: 0 :: 0 :: pid / 256 :: pid % 256 ::
      seq / 256 :: seq % 256 :: (ts ++ List.replicate (size - 8) 0))
  simp [create_packet, pack_B, pack_H, ICMP_ECHO_REQUEST, hpid, hseq, hns, hcs,
    Bind.bind, Except.bind, pure, Except.pure]

/-- C8 (corrected, amended form).  A reply buffer shorter than the fixed
header size fails to parse with a Python builtin error (IndexError or
struct.error), outside the library taxonomy; inside `ping` the blanket
`except Exception` (core.py line 280) re-raises it as the generic
`PyMiniPingException("Ping failed: ...")` — `PacketError` is defined in
exceptions.py but never raised anywhere in core.py. -/
theorem C8_short_buffer_generic_failure_not_PacketError :
    (∀ b : List Nat, b.length < 8 →
      parseReply AF_INET6 b
        = .error (.structError "unpack requires a buffer of 8 bytes")) ∧
    (∀ b : List Nat, ∀ host : String, ∀ timeout interval : ℚ,
      ∀ dscp : Option Int, ∀ ts : Nat → List Nat, ∀ decodeD : List Nat → ℚ,
      b.length < 28 → 0 ≤ timeout →
      ∃ e, parseReply AF_INET b = .error e ∧ PyErr.isTaxonomy e = false ∧
        (ping AF_INET host 1 timeout interval 8 dscp 5 ts decodeD [⟨0, b⟩]).outcome
            = .error (.pyMiniPing ("Ping failed: " ++ e.str)) ∧
        isPacketErrorOutcome
          (ping AF_INET host 1 timeout interval 8 dscp 5 ts decodeD [⟨0, b⟩]).outcome
            = false) := by
  refine ⟨parseReply_v6_short, ?_⟩
  intro b host timeout interval dscp ts decodeD hb ht
  obtain ⟨e, he, htax⟩ := parseReply_v4_short b hb
  have hcp := create_packet_v4_ok 5 1 8 (ts 1) (by norm_num) (by norm_num) le_rfl
  have hnt : ¬ timeout < (0 : ℚ) := not_lt.mpr ht
  have hout : (ping AF_INET host 1 timeout interval 8 dscp 5 ts decodeD
      [⟨0, b⟩]).outcome = .error (.pyMiniPing ("Ping failed: " ++ e.str)) := by
    simp only [ping, runLoop, listen]
    rw [show (5 : Nat) % 65536 = 5 from by norm_num]
    rw [hcp]
    simp only [if_neg hnt, he]
  exact ⟨e, he, htax, hout, by rw [hout]; rfl⟩

/-- Witness for C8's amended theorem at the concrete 5-byte buffer. -/
theorem C8_witness :
    (ping AF_INET "h" 1 1 0 8 none 5 tsF dF [⟨0, shortPkt⟩]).outcome
        = .error (.pyMiniPing "Ping failed: index out of range") ∧
    isPacketErrorOutcome
      (ping AF_INET "h" 1 1 0 8 none 5 tsF dF [⟨0, shortPkt⟩]).outcome = false := by
  obtain ⟨e, he, -, h1, h2⟩ :=
    C8_short_buffer_generic_failure_not_PacketError.2 shortPkt "h" 1 0 none tsF dF
      (by decide) (by norm_num)
  have hi : parseReply AF_INET shortPkt = .error (.indexError "index out of range") := by
    decide
  rw [hi] at he
  cases he
  exact ⟨h1, h2⟩

/-- Counterexample for C8 as stated: a 25-byte IPv4 reply (shorter than the
28-byte fixed header) makes the run fail with the wrapped generic
`PyMiniPingException`, not with `PacketError`. -/
theorem C8_counterexample :
    (ping AF_INET "h" 1 1 0 8 none 5 tsF dF [⟨0, fakeIp ++ [3, 3, 0, 0, 0]⟩]).outcome
        = .error (.pyMiniPing "Ping failed: unpack requires a buffer of 8 bytes") ∧
    isPacketErrorOutcome
      (ping AF_INET "h" 1 1 0 8 none 5 tsF dF
        [⟨0, fakeIp ++ [3, 3, 0, 0, 0]⟩]).outcome = false := by
  have hp : parseReply AF_INET (fakeIp ++ [3, 3, 0, 0, 0])
      = .error (.structError "unpack requires a buffer of 8 bytes") := by decide
  have hcp := create_packet_v4_ok 5 1 8 (tsF 1) (by norm_num) (by norm_num) le_rfl
  constructor <;>
  · simp only [ping, runLoop, listen]
    rw [show (5 : Nat) % 65536 = 5 from by norm_num]
    rw [hcp]
    rw [if_neg (by norm_num)]
    simp only [hp]
    rfl

/-- First component of a listen-result triple. -/
theorem fst3 (a : ℚ) (b : List Datagram) (c : Except PyErr (Option (ℚ × Option Nat))) :
    (a, b, c).1 = a := rfl

/-- C7 (corrected, amended form).  A foreign reply (id or sequence mismatch)
is ignored and listening continues (first conjunct, the step equation); but
the deadline is per-`recvfrom`, not per-sequence: `sock.settimeout(timeout)`
re-arms on every reception, so the listening clock for one sequence is only
bounded by `(number of datagrams + 1) * timeout` (second conjunct), and a
stream of foreign replies can push it beyond `timeout`. -/
theorem C7_foreign_ignored_but_deadline_restarts :
    (∀ family pid seq : Nat, ∀ timeout : ℚ, ∀ decodeD : List Nat → ℚ,
      ∀ clock : ℚ, ∀ d : Datagram, ∀ rest : List Datagram, ∀ r : Reply,
      d.delta ≤ timeout → parseReply family d.bytes = .ok r →
      ¬ ((family = AF_INET ∧ r.ty = 3) ∨ (¬ family = AF_INET ∧ r.ty = 1)) →
      ¬ (r.rid = (pid : Int) ∧ r.rseq = (seq : Int)) →
      listen family pid seq timeout decodeD clock (d :: rest)
        = listen family pid seq timeout decodeD (clock + d.delta) rest) ∧
    (∀ family pid seq : Nat, ∀ timeout : ℚ, ∀ decodeD : List Nat → ℚ,
      ∀ events : List Datagram, ∀ clock : ℚ, 0 ≤ timeout →
      (listen family pid seq timeout decodeD clock events).1
        ≤ clock + ((events.length : ℚ) + 1) * timeout) := by
  constructor
  · intro family pid seq timeout decodeD clock d rest r hd hp hnu hnm
    simp only [listen, if_neg (not_lt.mpr hd), hp, if_neg hnu, if_neg hnm]
  · intro family pid seq timeout decodeD events
    induction events with
    | nil =>
      intro clock ht
      simp only [listen, List.length_nil]
      nlinarith
    | cons d rest ih =>
      intro clock ht
      have hlen : (((d :: rest).length : ℚ)) = (rest.length : ℚ) + 1 := by
        push_cast [List.length_cons]
        ring
      rw [hlen]
      have hnn : (0 : ℚ) ≤ ((rest.length : ℚ) + 1) * timeout := by positivity
      simp only [listen]
      by_cases hlt : timeout < d.delta
      · rw [if_pos hlt]
        dsimp only
        nlinarith
      · rw [if_neg hlt]
        have hd : d.delta ≤ timeout := not_lt.mp hlt
        cases hpr : parseReply family d.bytes with
        | error e =>
          simp only [hpr, fst3]
          nlinarith
        | ok r =>
          simp only [hpr]
          by_cases hnu : (family = AF_INET ∧ r.ty = 3) ∨ (¬ family = AF_INET ∧ r.ty = 1)
          · rw [if_pos hnu]
            rw [fst3]
            nlinarith
          · rw [if_neg hnu]
            by_cases hnm : r.rid = (pid : Int) ∧ r.rseq = (seq : Int)
            · rw [if_pos hnm]
              cases hud : unpack_d decodeD (if family = AF_INET
                  then (d.bytes.drop 28).take 8 else (d.bytes.drop 8).take 8) with
              | error e =>
                simp only [hud, fst3]
                nlinarith
              | ok t =>
                simp only [hud, fst3]
                nlinarith
            · rw [if_neg hnm]
              have := ih (clock + d.delta) ht
              nlinarith

/-- Witness for C7's amended theorem: the concrete foreign datagram is
skipped by the step equation, and the concrete bound holds. -/
theorem C7_witness :
    listen AF_INET 5 1 1 dF 0 [⟨1, foreignPkt⟩]
      = listen AF_INET 5 1 1 dF (0 + 1) [] ∧
    (listen AF_INET 5 1 1 dF 0 [⟨1, foreignPkt⟩]).1
      ≤ 0 + ((([(⟨1, foreignPkt⟩ : Datagram)] : List Datagram).length : ℚ) + 1) * 1 := by
  constructor
  · exact C7_foreign_ignored_but_deadline_restarts.1 AF_INET 5 1 1 dF 0
      ⟨1, foreignPkt⟩ [] ⟨0, 0, 2313, 1, some 64⟩ (by decide) (by decide)
      (by decide) (by decide)
  · exact C7_foreign_ignored_but_deadline_restarts.2 AF_INET 5 1 1 dF
      [⟨1, foreignPkt⟩] 0 (by norm_num)

/-- Counterexample for C7 as stated: with `timeout = 1`, two foreign replies
arriving one second apart each re-arm the receive timeout; the loop ignores
both and then times out, having listened for 3 seconds — strictly more than
the claimed 1-second per-sequence deadline. -/
theorem C7_counterexample :
    listen AF_INET 5 1 1 dF 0 [⟨1, foreignPkt⟩, ⟨1, foreignPkt⟩]
      = (3, [], .ok none) ∧ ¬ ((3 : ℚ) ≤ 1) := by
  have hp : parseReply 2 foreignPkt = .ok ⟨0, 0, 2313, 1, some 64⟩ := by decide
  constructor
  · norm_num [listen, hp, AF_INET]
  · norm_num

/-- On the IPv6 path, struct format '!h' rejects any sequence above 32767
(core.py line 101), before the size check. -/
theorem create_packet_v6_overflow (pid seq size : Nat) (ts : List Nat)
    (hpid : pid ≤ 65535) (hseq : 32767 < seq) :
    create_packet AF_INET6 pid seq size ts
      = .error (.structError "short format requires -32768 <= number <= 32767") := by
  have hc : ¬ ((-32768 : Int) ≤ (seq : Int) ∧ (seq : Int) ≤ 32767) := by omega
  have hc2 : ¬ ((seq : Int) ≤ 32767) := by omega
  simp [create_packet, AF_INET, AF_INET6, pack_B, pack_b, pack_H, pack_h,
    ICMP6_ECHO_REQUEST, hpid, hc, hc2, Bind.bind, Except.bind, pure, Except.pure]

/-- Shape of the packet built by `create_packet` on the IPv6 path for
sequences within the signed 16-bit range. -/
theorem create_packet_v6_ok (pid seq size : Nat) (ts : List Nat)
    (hpid : pid ≤ 65535) (hseq : seq ≤ 32767) (hsize : 8 ≤ size) :
    create_packet AF_INET6 pid seq size ts = .ok
      ([128, 0,
        checksum ([128, 0, 0, 0, pid / 256, pid % 256, seq / 256, seq % 256]
          ++ (ts ++ List.replicate (size - 8) 0)) / 256,
        checksum ([128, 0, 0, 0, pid / 256, pid % 256, seq / 256, seq % 256]
          ++ (ts ++ List.replicate (size - 8) 0)) % 256,
        pid / 256, pid % 256, seq / 256, seq % 256]
       ++ (ts ++ List.replicate (size - 8) 0)) := by
  have hc : ((-32768 : Int) ≤ (seq : Int) ∧ (seq : Int) ≤ 32767) := by omega
  have hb : ((-128 : Int) ≤ (0 : Int) ∧ (0 : Int) ≤ 127) := by omega
  have hns : ¬ size < 8 := by omega
  have ht1 : (((seq : Int) % 65536) / 256).toNat = seq / 256 := by omega
  have ht2 : (((seq : Int) % 65536) % 256).toNat = seq % 256 := by omega
  have ht0 : (((0 : Int)) % 256).toNat = 0 := by omega
  have hcs := checksum_le (128 :: 0 :: 0 :: 0 :: pid / 256 :: pid % 256 ::
      seq / 256 :: seq % 256 :: (ts ++ List.replicate (size - 8) 0))
  simp [create_packet, AF_INET, AF_INET6, pack_B, pack_b, pack_H, pack_h,
    ICMP6_ECHO_REQUEST, hpid, hc, hb, hns, ht0, ht1, ht2, hcs,
    Bind.bind, Except.bind, pure, Except.pure]

/-- With no inbound datagrams, an IPv6 probe loop that still has sequence
32768 ahead of it terminates with the raw struct.error from
`create_packet` (raised on core.py line 242, outside the try block). -/
theorem runLoop_v6_overflow (pid : Nat) (timeout interval : ℚ) (size : Nat)
    (ts : Nat → List Nat) (decodeD : List Nat → ℚ) (count : Nat)
    (hpid : pid ≤ 65535) (hsize : 8 ≤ size) :
    ∀ fuel seq : Nat, ∀ st : St, st.events = [] → seq ≤ 32768 →
      32768 < seq + fuel →
      ∃ st', runLoop AF_INET6 pid timeout interval size ts decodeD count fuel seq st
        = (st', some (.structError "short format requires -32768 <= number <= 32767")) := by
  intro fuel
  induction fuel with
  | zero =>
    intro seq st h1 h2 h3
    omega
  | succ n ih =>
    intro seq st hev h2 h3
    by_cases hov : seq = 32768
    · subst hov
      refine ⟨st, ?_⟩
      simp only [runLoop,
        create_packet_v6_overflow pid 32768 size (ts 32768) hpid (by norm_num)]
    · have hlt : seq ≤ 32767 := by omega
      have hpkt := create_packet_v6_ok pid seq size (ts seq) hpid hlt hsize
      have hl : listen AF_INET6 pid seq timeout decodeD st.clock st.events
          = (st.clock + timeout, [], .ok none) := by
        rw [hev]
        simp [listen]
      obtain ⟨st', hst'⟩ := ih (seq + 1)
        { st with clock := st.clock + timeout + (if seq < count then interval else 0),
                  events := [] } rfl (by omega) (by omega)
      refine ⟨st', ?_⟩
      simp only [runLoop, hpkt, hl]
      exact hst'

/-- C10 (confirmed).  `create_packet` packs the IPv6 sequence with signed
'!BbHHh' but the IPv4 sequence with unsigned '!BBHHH': every sequence above
32767 fails packet construction on the IPv6 path with struct.error — raised
outside ping's try block (so not wrapped, outside the `PyMiniPingException`
taxonomy) and before `sock.close()` (so the socket leaks) — while the IPv4
path accepts sequences up to 65535; hence `ping` over IPv6 effectively
requires `count ≤ 32767`. -/
theorem C10_ipv6_signed_sequence_bound :
    (∀ pid seq size : Nat, ∀ ts : List Nat, pid ≤ 65535 → 32767 < seq →
      create_packet AF_INET6 pid seq size ts
        = .error (.structError "short format requires -32768 <= number <= 32767") ∧
      PyErr.isTaxonomy
        (.structError "short format requires -32768 <= number <= 32767") = false) ∧
    (∀ pid seq size : Nat, ∀ ts : List Nat, pid ≤ 65535 → seq ≤ 32767 → 8 ≤ size →
      ∃ pkt, create_packet AF_INET6 pid seq size ts = .ok pkt) ∧
    (∀ pid seq size : Nat, ∀ ts : List Nat, pid ≤ 65535 → seq ≤ 65535 → 8 ≤ size →
      ∃ pkt, create_packet AF_INET pid seq size ts = .ok pkt) ∧
    (∀ host : String, ∀ count : Nat, ∀ timeout interval : ℚ, ∀ size : Nat,
      ∀ dscp : Option Int, ∀ pid : Nat, ∀ ts : Nat → List Nat,
      ∀ decodeD : List Nat → ℚ, 32768 ≤ count → 8 ≤ size →
      (ping AF_INET6 host count timeout interval size dscp pid ts decodeD []).outcome
        = .error (.structError "short format requires -32768 <= number <= 32767") ∧
      (ping AF_INET6 host count timeout interval size dscp pid ts decodeD
        []).socketCloses = 0) := by
  refine ⟨?_, ?_, ?_, ?_⟩
  · intro pid seq size ts hpid hseq
    exact ⟨create_packet_v6_overflow pid seq size ts hpid hseq, rfl⟩
  · intro pid seq size ts hpid hseq hsize
    exact ⟨_, create_packet_v6_ok pid seq size ts hpid hseq hsize⟩
  · intro pid seq size ts hpid hseq hsize
    exact ⟨_, create_packet_v4_ok pid seq size ts hpid hseq hsize⟩
  · intro host count timeout interval size dscp pid ts decodeD hcount hsize
    have hm : pid % 65536 < 65536 := Nat.mod_lt _ (by norm_num)
    obtain ⟨st', hst'⟩ := runLoop_v6_overflow (pid % 65536) timeout interval size
      ts decodeD count (by omega) hsize count 1 ⟨0, [], [], 0, none⟩ rfl
      (by omega) (by omega)
    simp only [ping, hst']
    exact ⟨trivial, trivial⟩

/-- Witness for C10 at concrete values: sequence 40000 overflows on IPv6,
sequences 100 (IPv6) and 40000 (IPv4) pack fine, and a 32768-probe IPv6 run
dies with the raw struct.error, its socket never closed. -/
theorem C10_witness :
    (create_packet AF_INET6 5 40000 8 ts8
        = .error (.structError "short format requires -32768 <= number <= 32767")) ∧
    (∃ pkt, create_packet AF_INET6 5 100 8 ts8 = .ok pkt) ∧
    (∃ pkt, create_packet AF_INET 5 40000 8 ts8 = .ok pkt) ∧
    (ping AF_INET6 "h" 32768 1 (1/10) 8 none 5 tsF dF []).outcome
        = .error (.structError "short format requires -32768 <= number <= 32767") ∧
    (ping AF_INET6 "h" 32768 1 (1/10) 8 none 5 tsF dF []).socketCloses = 0 := by
  refine ⟨?_, ?_, ?_, ?_, ?_⟩
  · exact (C10_ipv6_signed_sequence_bound.1 5 40000 8 ts8 (by norm_num)
      (by norm_num)).1
  · exact C10_ipv6_signed_sequence_bound.2.1 5 100 8 ts8 (by norm_num)
      (by norm_num) (by norm_num)
  · exact C10_ipv6_signed_sequence_bound.2.2.1 5 40000 8 ts8 (by norm_num)
      (by norm_num) (by norm_num)
  · exact (C10_ipv6_signed_sequence_bound.2.2.2 "h" 32768 1 (1/10) 8 none 5
      tsF dF (by norm_num) (by norm_num)).1
  · exact (C10_ipv6_signed_sequence_bound.2.2.2 "h" 32768 1 (1/10) 8 none 5
      tsF dF (by norm_num) (by norm_num)).2

/-- Ordered insertion grows the length by one. -/
theorem length_insertAsc (x : ℚ) (l : List ℚ) :
    (insertAsc x l).length = l.length + 1 := by
  induction l with
  | nil => rfl
  | cons y ys ih =>
    simp only [insertAsc]
    split
    · simp
    · simp [ih]

/-- Sorting preserves the length. -/
theorem length_sortAsc (l : List ℚ) : (sortAsc l).length = l.length := by
  induction l with
  | nil => rfl
  | cons x xs ih => simp [sortAsc, length_insertAsc, ih]

/-- The code's 95th-percentile rank computation on a non-empty (sorted) list
equals the spec's form: the single element when `n = 1`, else linear
interpolation between the floor and ceiling indices of rank
`(n - 1) * 0.95`. -/
theorem percentileRank95_eq (d : List ℚ) (hd : d ≠ []) :
    percentileRank d 95
      = if d.length = 1 then d.headI
        else d.getD (⌊((d.length : ℚ) - 1) * (95 / 100)⌋).toNat 0
          + ((((d.length : ℚ) - 1) * (95 / 100))
              - ((⌊((d.length : ℚ) - 1) * (95 / 100)⌋ : ℤ) : ℚ))
            * (d.getD (⌈((d.length : ℚ) - 1) * (95 / 100)⌉).toNat 0
               - d.getD (⌊((d.length : ℚ) - 1) * (95 / 100)⌋).toNat 0) := by
  have hn : 0 < d.length := List.length_pos.mpr hd
  simp only [percentileRank]
  by_cases h1 : d.length = 1
  · rw [if_pos h1]
    obtain ⟨y, rfl⟩ := List.length_eq_one.mp h1
    have hy : ((([y] : List ℚ).getLast?).getD 0) = y := rfl
    norm_num [hy, List.headI]
  · rw [if_neg h1]
    have h2 : 2 ≤ d.length := by omega
    have hkk : (((d.length : ℤ) : ℚ) - 1) * (95 / 100)
        = ((d.length : ℚ) - 1) * (95 / 100) := by push_cast; ring
    rw [hkk]
    set k : ℚ := ((d.length : ℚ) - 1) * (95 / 100) with hk
    have hQ2 : (2 : ℚ) ≤ (d.length : ℚ) := by exact_mod_cast h2
    have h0k : 0 ≤ k := by rw [hk]; nlinarith
    have hkN : k < (d.length : ℚ) - 1 := by rw [hk]; nlinarith
    have hfl : ⌊k⌋ < (d.length : ℤ) - 1 := by
      rw [Int.floor_lt]
      push_cast
      linarith
    rw [if_neg (by omega : ¬ ((d.length : ℤ) - 1 < ⌊k⌋ + 1))]
    by_cases hint : ((⌊k⌋ : ℤ) : ℚ) = k
    · have hceil : ⌈k⌉ = ⌊k⌋ := by
        conv_lhs => rw [← hint]
        exact Int.ceil_intCast ⌊k⌋
      rw [hceil]
      generalize d.getD (⌊k⌋).toNat 0 = A
      generalize d.getD (⌊k⌋ + 1).toNat 0 = B
      push_cast
      rw [hint]
      ring
    · have hceil : ⌈k⌉ = ⌊k⌋ + 1 := by
        have hle := Int.floor_le k
        have hge := Int.le_ceil k
        have hc1 := Int.ceil_le_floor_add_one k
        have hc2 := Int.floor_le_ceil k
        rcases lt_or_eq_of_le hc2 with h | h
        · omega
        · exfalso
          apply hint
          have hqq : ((⌊k⌋ : ℤ) : ℚ) = ((⌈k⌉ : ℤ) : ℚ) := by exact_mod_cast h
          linarith [hqq ▸ hge]
      rw [hceil]
      push_cast
      ring

/-- C6 (confirmed).  `percentile(data, 95)` on a non-empty list equals the
spec's linear-interpolation percentile (sort ascending, rank
`k = (n-1) * 0.95`, interpolate between floor and ceiling indices, single
value returned directly); in particular a single sample is returned as-is
and `[1, 2]` gives `1.95 = 39/20`. -/
theorem C6_percentile_linear_interpolation :
    (∀ data : List ℚ, data ≠ [] → percentile data 95 = p95_spec data) ∧
    (∀ x : ℚ, percentile [x] 95 = some x) ∧
    percentile [(1 : ℚ), 2] 95 = some (39 / 20) := by
  have hmain : ∀ data : List ℚ, data ≠ [] → percentile data 95 = p95_spec data := by
    intro data hne
    cases data with
    | nil => exact absurd rfl hne
    | cons a as =>
      simp only [percentile, p95_spec]
      have hd : sortAsc (a :: as) ≠ [] := by
        have hl := length_sortAsc (a :: as)
        intro h
        rw [h] at hl
        simp at hl
      rw [percentileRank95_eq _ hd, apply_ite some]
  refine ⟨hmain, ?_, ?_⟩
  · intro x
    have hs : sortAsc [x] = [x] := rfl
    have h := percentileRank95_eq [x] (by simp)
    simp only [percentile, hs, h]
    norm_num [List.headI]
  · have hs : sortAsc [(1 : ℚ), 2] = [1, 2] := by norm_num [sortAsc, insertAsc]
    simp only [percentile, hs, percentileRank]
    have hfl : ⌊(((([(1 : ℚ), 2] : List ℚ).length : ℤ) : ℚ) - 1) * (95 / 100)⌋ = 0 := by
      norm_num
    norm_num [hfl, List.getD]

/-- Witness for C6 at concrete inputs: the refinement instance on `[1, 2]`
and the single-sample case at `7`. -/
theorem C6_witness :
    percentile [(1 : ℚ), 2] 95 = p95_spec [(1 : ℚ), 2] ∧
    percentile [(7 : ℚ)] 95 = some 7 :=
  ⟨C6_percentile_linear_interpolation.1 [(1 : ℚ), 2] (by simp),
   C6_percentile_linear_interpolation.2.1 7⟩

/-- Padding zeros contribute nothing to the checksum summation loop (each
pair adds `0` and the 32-bit mask is the identity below `2^32`). -/
theorem sumLoop_replicate_zero : ∀ (n : Nat) (s : Nat), s < 4294967296 →
    sumLoop s (List.replicate n 0) = s := by
  intro n
  induction n using Nat.strong_induction_on with
  | _ n ih =>
    intro s hs
    match n with
    | 0 => rfl
    | 1 => simp [List.replicate, sumLoop, Nat.mod_eq_of_lt hs]
    | n + 2 =>
      rw [List.replicate, List.replicate, sumLoop]
      rw [show (s + (0 * 256 + 0)) % 4294967296 = s from by omega]
      exact ih n (by omega) s hs

/-- The summation loop over a 16-byte prefix of byte values followed by zero
padding equals the plain sum of its eight little-endian words: the running
sum never gets near the 32-bit mask. -/
theorem sumLoop_16_small (x0 x1 x2 x3 x4 x5 x6 x7 x8 x9 x10 x11 x12 x13 x14 x15 m : Nat)
    (h0 : x0 ≤ 255) (h1 : x1 ≤ 255) (h2 : x2 ≤ 255) (h3 : x3 ≤ 255)
    (h4 : x4 ≤ 255) (h5 : x5 ≤ 255) (h6 : x6 ≤ 255) (h7 : x7 ≤ 255)
    (h8 : x8 ≤ 255) (h9 : x9 ≤ 255) (h10 : x10 ≤ 255) (h11 : x11 ≤ 255)
    (h12 : x12 ≤ 255) (h13 : x13 ≤ 255) (h14 : x14 ≤ 255) (h15 : x15 ≤ 255) :
    sumLoop 0 (x0 :: x1 :: x2 :: x3 :: x4 :: x5 :: x6 :: x7 ::
        x8 :: x9 :: x10 :: x11 :: x12 :: x13 :: x14 :: x15 :: List.replicate m 0)
      = (x1 * 256 + x0) + (x3 * 256 + x2) + (x5 * 256 + x4) + (x7 * 256 + x6)
        + (x9 * 256 + x8) + (x11 * 256 + x10) + (x13 * 256 + x12) + (x15 * 256 + x14) := by
  simp only [sumLoop]
  rw [sumLoop_replicate_zero m _ (Nat.mod_lt _ (by norm_num))]
  rw [Nat.mod_eq_of_lt (show 0 + (x1 * 256 + x0) < 4294967296 by omega)]
  rw [Nat.mod_eq_of_lt (show 0 + (x1 * 256 + x0) + (x3 * 256 + x2) < 4294967296 by omega)]
  rw [Nat.mod_eq_of_lt (show 0 + (x1 * 256 + x0) + (x3 * 256 + x2) + (x5 * 256 + x4)
      < 4294967296 by omega)]
  rw [Nat.mod_eq_of_lt (show 0 + (x1 * 256 + x0) + (x3 * 256 + x2) + (x5 * 256 + x4)
      + (x7 * 256 + x6) < 4294967296 by omega)]
  rw [Nat.mod_eq_of_lt (show 0 + (x1 * 256 + x0) + (x3 * 256 + x2) + (x5 * 256 + x4)
      + (x7 * 256 + x6) + (x9 * 256 + x8) < 4294967296 by omega)]
  rw [Nat.mod_eq_of_lt (show 0 + (x1 * 256 + x0) + (x3 * 256 + x2) + (x5 * 256 + x4)
      + (x7 * 256 + x6) + (x9 * 256 + x8) + (x11 * 256 + x10) < 4294967296 by omega)]
  rw [Nat.mod_eq_of_lt (show 0 + (x1 * 256 + x0) + (x3 * 256 + x2) + (x5 * 256 + x4)
      + (x7 * 256 + x6) + (x9 * 256 + x8) + (x11 * 256 + x10) + (x13 * 256 + x12)
      < 4294967296 by omega)]
  rw [Nat.mod_eq_of_lt (show 0 + (x1 * 256 + x0) + (x3 * 256 + x2) + (x5 * 256 + x4)
      + (x7 * 256 + x6) + (x9 * 256 + x8) + (x11 * 256 + x10) + (x13 * 256 + x12)
      + (x15 * 256 + x14) < 4294967296 by omega)]
  omega

/-- Writing the checksum of the zero-checksum packet into bytes 2-3 of an
echo packet (type byte `a0`, code 0, id bytes `b4 b5`, sequence bytes
`b6 b7`, 8 timestamp bytes, zero padding) makes the checksum of the full
packet vanish: the RFC 1071 validation property the spec asserts. -/
theorem checksum_packet_zero (a0 b4 b5 b6 b7 t0 t1 t2 t3 t4 t5 t6 t7 m : Nat)
    (ha0 : a0 ≤ 255) (h4 : b4 ≤ 255) (h5 : b5 ≤ 255) (h6 : b6 ≤ 255) (h7 : b7 ≤ 255)
    (g0 : t0 ≤ 255) (g1 : t1 ≤ 255) (g2 : t2 ≤ 255) (g3 : t3 ≤ 255)
    (g4 : t4 ≤ 255) (g5 : t5 ≤ 255) (g6 : t6 ≤ 255) (g7 : t7 ≤ 255) :
    checksum (a0 :: 0 ::
      (checksum (a0 :: 0 :: 0 :: 0 :: b4 :: b5 :: b6 :: b7 ::
        t0 :: t1 :: t2 :: t3 :: t4 :: t5 :: t6 :: t7 :: List.replicate m 0) / 256) ::
      (checksum (a0 :: 0 :: 0 :: 0 :: b4 :: b5 :: b6 :: b7 ::
        t0 :: t1 :: t2 :: t3 :: t4 :: t5 :: t6 :: t7 :: List.replicate m 0) % 256) ::
      b4 :: b5 :: b6 :: b7 ::
      t0 :: t1 :: t2 :: t3 :: t4 :: t5 :: t6 :: t7 :: List.replicate m 0) = 0 := by
  have hin := sumLoop_16_small a0 0 0 0 b4 b5 b6 b7 t0 t1 t2 t3 t4 t5 t6 t7 m
      ha0 (by omega) (by omega) (by omega) h4 h5 h6 h7 g0 g1 g2 g3 g4 g5 g6 g7
  set C := checksum (a0 :: 0 :: 0 :: 0 :: b4 :: b5 :: b6 :: b7 ::
      t0 :: t1 :: t2 :: t3 :: t4 :: t5 :: t6 :: t7 :: List.replicate m 0) with hCs
  have hCle : C ≤ 65535 := checksum_le _
  have hout := sumLoop_16_small a0 0 (C / 256) (C % 256) b4 b5 b6 b7
      t0 t1 t2 t3 t4 t5 t6 t7 m
      ha0 (by omega) (by omega) (by omega) h4 h5 h6 h7 g0 g1 g2 g3 g4 g5 g6 g7
  obtain ⟨S, hSdef⟩ : ∃ S, 0 * 256 + a0 + (0 * 256 + 0) + (b5 * 256 + b4)
      + (b7 * 256 + b6) + (t1 * 256 + t0) + (t3 * 256 + t2) + (t5 * 256 + t4)
      + (t7 * 256 + t6) = S := ⟨_, rfl⟩
  have hSb : S ≤ 524280 := by omega
  obtain ⟨A, hAdef⟩ : ∃ A, 65535
      - (S / 65536 + S % 65536 + (S / 65536 + S % 65536) / 65536) % 65536 = A := ⟨_, rfl⟩
  have hAb : A ≤ 65535 := by omega
  have hCA : C = A % 256 * 256 + A / 256 := by
    rw [hCs]
    simp only [checksum, hin]
    rw [hSdef, hAdef]
  have hswap : C % 256 * 256 + C / 256 = A := by rw [hCA]; omega
  simp only [checksum, hout]
  rw [hswap]
  rw [show 0 * 256 + a0 + A + (b5 * 256 + b4) + (b7 * 256 + b6) + (t1 * 256 + t0)
      + (t3 * 256 + t2) + (t5 * 256 + t4) + (t7 * 256 + t6) = S + A from by omega]
  clear_value C
  clear hin hout hCA hswap hCle hCs hSdef C
  rcases Nat.lt_or_ge (S / 65536 + S % 65536) 65536 with hc | hc
  · have f1 : (S / 65536 + S % 65536) / 65536 = 0 := by omega
    have f2 : A = 65535 - (S / 65536 + S % 65536) := by omega
    have f3 : S + A = 65536 * (S / 65536) + (65535 - S / 65536) := by omega
    have f4 : (S + A) / 65536 = S / 65536 := by omega
    have f5 : (S + A) % 65536 = 65535 - S / 65536 := by omega
    rw [f4, f5]
    omega
  · have f1 : (S / 65536 + S % 65536) / 65536 = 1 := by omega
    have f2 : A = 65535 - (S / 65536 + S % 65536 + 1 - 65536) := by omega
    have f3 : S + A = 65536 * (S / 65536 + 1) + (65534 - S / 65536) := by omega
    have f4 : (S + A) / 65536 = S / 65536 + 1 := by omega
    have f5 : (S + A) % 65536 = 65534 - S / 65536 := by omega
    rw [f4, f5]
    omega

/-- Parsing an IPv6 inbound buffer that starts with a full 8-byte ICMP
header yields its fields (code and sequence read as signed). -/
theorem parseReply_v6_echo (x0 x1 x2 x3 x4 x5 x6 x7 : Nat) (rest : List Nat) :
    parseReply AF_INET6 (x0 :: x1 :: x2 :: x3 :: x4 :: x5 :: x6 :: x7 :: rest)
      = .ok ⟨x0, signed8 x1, (x4 * 256 + x5 : Nat), signed16 (x6 * 256 + x7),
             none⟩ := rfl

/-- Parsing an IPv4 loopback reply (any 20-byte IP header followed by the
ICMP packet) yields the ICMP header fields and the TTL from IP byte 8. -/
theorem parseReply_v4_loopback (iph : List Nat) (x0 x1 x2 x3 x4 x5 x6 x7 : Nat)
    (rest : List Nat) (hiph : iph.length = 20) :
    parseReply AF_INET (iph ++ (x0 :: x1 :: x2 :: x3 :: x4 :: x5 :: x6 :: x7 :: rest))
      = .ok ⟨x0, (x1 : Int), (x4 * 256 + x5 : Nat), (x6 * 256 + x7 : Nat),
             some (iph.getD 8 0)⟩ := by
  have hlt : 8 < iph.length := by omega
  have htake : (iph ++ (x0 :: x1 :: x2 :: x3 :: x4 :: x5 :: x6 :: x7 :: rest)).take 20
      = iph := by
    rw [← hiph]
    exact List.take_left _ _
  have hdrop : (iph ++ (x0 :: x1 :: x2 :: x3 :: x4 :: x5 :: x6 :: x7 :: rest)).drop 20
      = x0 :: x1 :: x2 :: x3 :: x4 :: x5 :: x6 :: x7 :: rest := by
    rw [← hiph]
    exact List.drop_left _ _
  have hbg : byteGet iph 8 = .ok (iph.getD 8 0) := by
    rw [byteGet, dif_pos hlt, List.getD_eq_getElem _ _ hlt]
  have htk8 : (x0 :: x1 :: x2 :: x3 :: x4 :: x5 :: x6 :: x7 :: rest).take 8
      = [x0, x1, x2, x3, x4, x5, x6, x7] := by
    rw [show x0 :: x1 :: x2 :: x3 :: x4 :: x5 :: x6 :: x7 :: rest
        = [x0, x1, x2, x3, x4, x5, x6, x7] ++ rest from rfl,
      show (8 : Nat) = ([x0, x1, x2, x3, x4, x5, x6, x7] : List Nat).length from rfl,
      List.take_left]
  simp only [parseReply, AF_INET, if_pos, htake, hdrop, htk8, hbg,
    Bind.bind, Except.bind]
  rfl

/-- C5 (corrected, amended form).  For IPv4 with any 16-bit id and sequence,
and for IPv6 with any 16-bit id and sequence up to 32767 (the signed '!h'
bound — see the counterexample for why full 16-bit sequences fail),
encoding then decoding at the family's offsets (as in a loopback reply)
recovers the id and sequence, and for IPv4 the internet checksum over the
full encoded packet (checksum field filled in) validates as zero. -/
theorem C5_roundtrip_and_checksum_validates :
    (∀ pid seq size t0 t1 t2 t3 t4 t5 t6 t7 : Nat, ∀ iph : List Nat,
      pid ≤ 65535 → seq ≤ 65535 → 8 ≤ size →
      t0 ≤ 255 → t1 ≤ 255 → t2 ≤ 255 → t3 ≤ 255 →
      t4 ≤ 255 → t5 ≤ 255 → t6 ≤ 255 → t7 ≤ 255 → iph.length = 20 →
      ∃ pkt, create_packet AF_INET pid seq size [t0, t1, t2, t3, t4, t5, t6, t7]
          = .ok pkt ∧
        parseReply AF_INET (iph ++ pkt)
          = .ok ⟨ICMP_ECHO_REQUEST, 0, (pid : Int), (seq : Int), some (iph.getD 8 0)⟩ ∧
        checksum pkt = 0) ∧
    (∀ pid seq size t0 t1 t2 t3 t4 t5 t6 t7 : Nat,
      pid ≤ 65535 → seq ≤ 32767 → 8 ≤ size →
      ∃ pkt, create_packet AF_INET6 pid seq size [t0, t1, t2, t3, t4, t5, t6, t7]
          = .ok pkt ∧
        parseReply AF_INET6 pkt
          = .ok ⟨ICMP6_ECHO_REQUEST, 0, (pid : Int), (seq : Int), none⟩) := by
  constructor
  · intro pid seq size t0 t1 t2 t3 t4 t5 t6 t7 iph hpid hseq hsize
      g0 g1 g2 g3 g4 g5 g6 g7 hiph
    refine ⟨_, create_packet_v4_ok pid seq size [t0, t1, t2, t3, t4, t5, t6, t7]
        hpid hseq hsize, ?_, ?_⟩
    · have hp := parseReply_v4_loopback iph 8 0
        (checksum ([8, 0, 0, 0, pid / 256, pid % 256, seq / 256, seq % 256]
          ++ ([t0, t1, t2, t3, t4, t5, t6, t7] ++ List.replicate (size - 8) 0)) / 256)
        (checksum ([8, 0, 0, 0, pid / 256, pid % 256, seq / 256, seq % 256]
          ++ ([t0, t1, t2, t3, t4, t5, t6, t7] ++ List.replicate (size - 8) 0)) % 256)
        (pid / 256) (pid % 256) (seq / 256) (seq % 256)
        ([t0, t1, t2, t3, t4, t5, t6, t7] ++ List.replicate (size - 8) 0) hiph
      rw [show pid / 256 * 256 + pid % 256 = pid from by omega,
          show seq / 256 * 256 + seq % 256 = seq from by omega] at hp
      exact hp
    · exact checksum_packet_zero 8 (pid / 256) (pid % 256) (seq / 256) (seq % 256)
        t0 t1 t2 t3 t4 t5 t6 t7 (size - 8) (by omega) (by omega) (by omega)
        (by omega) (by omega) g0 g1 g2 g3 g4 g5 g6 g7
  · intro pid seq size t0 t1 t2 t3 t4 t5 t6 t7 hpid hseq hsize
    refine ⟨_, create_packet_v6_ok pid seq size [t0, t1, t2, t3, t4, t5, t6, t7]
        hpid hseq hsize, ?_⟩
    have hp := parseReply_v6_echo 128 0
      (checksum ([128, 0, 0, 0, pid / 256, pid % 256, seq / 256, seq % 256]
        ++ ([t0, t1, t2, t3, t4, t5, t6, t7] ++ List.replicate (size - 8) 0)) / 256)
      (checksum ([128, 0, 0, 0, pid / 256, pid % 256, seq / 256, seq % 256]
        ++ ([t0, t1, t2, t3, t4, t5, t6, t7] ++ List.replicate (size - 8) 0)) % 256)
      (pid / 256) (pid % 256) (seq / 256) (seq % 256)
      ([t0, t1, t2, t3, t4, t5, t6, t7] ++ List.replicate (size - 8) 0)
    rw [show pid / 256 * 256 + pid % 256 = pid from by omega] at hp
    rw [show signed16 (seq / 256 * 256 + seq % 256) = (seq : Int) from by
      rw [show seq / 256 * 256 + seq % 256 = seq from by omega]
      unfold signed16
      rw [if_pos (by omega)]] at hp
    exact hp

/-- Witness for C5's amended theorem at concrete values (id 4660, sequence
517, odd size 9, concrete timestamp bytes, the concrete fake IP header). -/
theorem C5_witness :
    (∃ pkt, create_packet AF_INET 4660 517 9 [1, 2, 3, 4, 5, 6, 7, 8] = .ok pkt ∧
      parseReply AF_INET (fakeIp ++ pkt)
        = .ok ⟨ICMP_ECHO_REQUEST, 0, (4660 : Int), (517 : Int), some (fakeIp.getD 8 0)⟩ ∧
      checksum pkt = 0) ∧
    (∃ pkt, create_packet AF_INET6 4660 517 9 [1, 2, 3, 4, 5, 6, 7, 8] = .ok pkt ∧
      parseReply AF_INET6 pkt
        = .ok ⟨ICMP6_ECHO_REQUEST, 0, (4660 : Int), (517 : Int), none⟩) := by
  constructor
  · exact C5_roundtrip_and_checksum_validates.1 4660 517 9 1 2 3 4 5 6 7 8 fakeIp
      (by norm_num) (by norm_num) (by norm_num) (by norm_num) (by norm_num)
      (by norm_num) (by norm_num) (by norm_num) (by norm_num) (by norm_num)
      (by norm_num) rfl
  · exact C5_roundtrip_and_checksum_validates.2 4660 517 9 1 2 3 4 5 6 7 8
      (by norm_num) (by norm_num) (by norm_num)

/-- Counterexample for C5 as stated: for the IPv6 family with the 16-bit
sequence 32768, encoding produces no packet at all (struct.error from the
signed '!h' pack), so the round-trip property fails there. -/
theorem C5_counterexample :
    create_packet AF_INET6 5 32768 8 ts8
      = .error (.structError "short format requires -32768 <= number <= 32767") := by
  decide

end Pyminiping
